import Mathlib

/-!
Verification of the DhanHQ order-update WebSocket client
(`src/dhanhq/orderupdate.py`).

The development shallowly embeds the `OrderUpdate` class: decoded JSON
values become an inductive `Json` type, the Python dynamic operations the
code uses (`dict.get`, `in`, subscripting, `json.dumps`) become total Lean
functions returning `Except PyErr` where Python would raise, and the
side-effecting session (`connect_order_update`) becomes a function from a
transport trace to the list of emitted events plus an outcome.
-/

/-- Decoded JSON values, as produced by the external decoder `json.loads`.
An object is a finite map rendered as an association list with distinct
keys (the decoder builds a Python `dict`). -/
inductive Json where
  | str (s : String)
  | num (n : Int)
  | bool (b : Bool)
  | null
  | arr (elems : List Json)
  | obj (fields : List (String × Json))

/-- Python exceptions that the dynamic operations used by
`handle_order_update` can raise. -/
inductive PyErr where
  | attributeError
  | typeError
  | keyError
  deriving DecidableEq, Repr

/-- Python `d.get(k)` on a decoded JSON value: on a `dict` it returns the
value at `k` (or `None`, modelled by the `Option`); on any non-dict value
the attribute lookup `.get` raises `AttributeError`. -/
def Json.dictGet : Json → String → Except PyErr (Option Json)
  | .obj fields, k => .ok (fields.lookup k)
  | _, _ => .error .attributeError

/-- Substring test on character lists, used for Python `k in s` when `s`
is a string. -/
def charsContain (needle : List Char) : List Char → Bool
  | [] => needle.isEmpty
  | c :: rest => needle.isPrefixOf (c :: rest) || charsContain needle rest

/-- Python `v == "lit"` for a string literal `lit`: true exactly when `v`
is the equal string; every other decoded JSON value (including `None`,
modelled by the `Option` being `none`) compares unequal to a string. -/
def pyEqStr (v : Option Json) (lit : String) : Bool :=
  match v with
  | some (.str s) => s == lit
  | _ => false

/-- Python `k in data` for a string key `k`: key membership on a dict,
substring test on a string, elementwise `==` membership on a list, and a
`TypeError` on the non-container values. -/
def pyContains (k : String) : Json → Except PyErr Bool
  | .obj fields => .ok (fields.lookup k).isSome
  | .str s => .ok (charsContain k.toList s.toList)
  | .arr elems => .ok (elems.any fun v => pyEqStr (some v) k)
  | _ => .error .typeError

/-- Python `data[k]` for a string key `k`: dict lookup (raising `KeyError`
when absent); strings and lists reject a string index with `TypeError`,
as do the remaining values. -/
def Json.subscript : Json → String → Except PyErr Json
  | .obj fields, k =>
      match fields.lookup k with
      | some v => .ok v
      | none => .error .keyError
  | _, _ => .error .typeError

/-- Lower-case hexadecimal digit, as used by `json.dumps` in `\uXXXX`
escapes. -/
def hexDigitChar (n : Nat) : Char :=
  if n < 10 then Char.ofNat (48 + n) else Char.ofNat (87 + n)

/-- Four-digit lower-case hexadecimal rendering of `n % 65536`. -/
def hex4 (n : Nat) : String :=
  String.mk [hexDigitChar (n / 4096 % 16), hexDigitChar (n / 256 % 16),
             hexDigitChar (n / 16 % 16), hexDigitChar (n % 16)]

/-- One character of a JSON string as escaped by Python `json.dumps` with
its default `ensure_ascii=True`: backslash, double quote and the named
control characters get two-character escapes, every other character
outside the printable ASCII range `0x20`–`0x7e` becomes `\uXXXX` (a
surrogate pair beyond the basic multilingual plane), and printable ASCII
passes through verbatim. -/
def escapeJsonChar (c : Char) : String :=
  if c = '\\' then "\\\\"
  else if c = '"' then "\\\""
  else if c = '\n' then "\\n"
  else if c = '\r' then "\\r"
  else if c = '\t' then "\\t"
  else if c.toNat = 8 then "\\b"
  else if c.toNat = 12 then "\\f"
  else if c.toNat < 32 || 126 < c.toNat then
    if c.toNat ≤ 65535 then "\\u" ++ hex4 c.toNat
    else
      "\\u" ++ hex4 (55296 + (c.toNat - 65536) / 1024) ++
      "\\u" ++ hex4 (56320 + (c.toNat - 65536) % 1024)
  else String.singleton c

/-- A JSON string literal as rendered by `json.dumps`. -/
def dumpJsonString (s : String) : String :=
  "\"" ++ String.join (s.toList.map escapeJsonChar) ++ "\""

mutual

/-- Python `json.dumps` with its defaults: separators `", "` and `": "`,
`ensure_ascii=True`. This serializes the login payload the client sends.
`dumpsList` and `dumpsFields` render the elements of an array and the
`key: value` entries of an object, joined with `", "`. -/
def Json.dumps : Json → String
  | .str s => dumpJsonString s
  | .num n => toString n
  | .bool b => cond b "true" "false"
  | .null => "null"
  | .arr elems => "[" ++ String.intercalate ", " (Json.dumpsList elems) ++ "]"
  | .obj fields =>
      "\x7b" ++ String.intercalate ", " (Json.dumpsFields fields) ++ "\x7d"

def Json.dumpsList : List Json → List String
  | [] => []
  | v :: vs => Json.dumps v :: Json.dumpsList vs

def Json.dumpsFields : List (String × Json) → List String
  | [] => []
  | (k, v) :: fs => (dumpJsonString k ++ ": " ++ Json.dumps v) :: Json.dumpsFields fs

end

/-- The value held in the single `on_update` slot of an `OrderUpdate`
instance. `handler f` is a registered callable (a function object, which
is truthy); `noncallable v` is any assigned non-callable value;
`none` is the class default `None`. A handler may return a value or raise
(`Except.error`). -/
inductive UpdateSlot where
  | none
  | handler (f : Json → Except PyErr Json)
  | noncallable (v : Json)

/-- The guard `self.on_update and callable(self.on_update)` on line 70:
`None` is falsy, a function object is truthy and callable, and any other
assigned value fails `callable(...)` (if it were falsy it would already
fail the first conjunct). The active handler, when the guard passes. -/
def UpdateSlot.activeHandler : UpdateSlot → Option (Json → Except PyErr Json)
  | .handler f => some f
  | _ => Option.none

/-- The three console presentations printed by `handle_order_update`:
the status line (line 77), the generic order-update line (line 79) and
the unknown-message line (line 81), each carrying the values interpolated
into the corresponding f-string. -/
inductive Observation where
  | statusLine (status : Json) (orderId : Json) (data : Json)
  | orderUpdateReceived (data : Json)
  | unknownMessage (msg : Json)

/-- Externally visible events of one session, in order: a text frame
passed to `websocket.send`, the `print` after the send (line 57), an
invocation of the registered `on_update` handler with its argument, one
of the printed presentations of `handle_order_update`, and the release of
the transport connection when control leaves the `async with` block. -/
inductive TraceEvent where
  | sent (text : String)
  | logSent (msg : Json)
  | handlerInvoked (frame : Json)
  | observed (o : Observation)
  | connClosed

/-- Lines 74–79 of `handle_order_update`, after the local binding
`data = order_update.get('Data', {})` (here the function argument): if
`"orderNo" in data`, print the status line with `data["orderNo"]` and
`data.get("status", "Unknown status")`; otherwise print the generic
order-update line. The function value is Python `None` (`Json.null`) on
success. -/
def presentData (data : Json) : List TraceEvent × Except PyErr Json :=
  match pyContains "orderNo" data with
  | .error e => ([], .error e)
  | .ok true =>
    match Json.subscript data "orderNo" with
    | .error e => ([], .error e)
    | .ok order_id =>
      match Json.dictGet data "status" with
      | .error e => ([], .error e)
      | .ok sOpt =>
        ([.observed (.statusLine (sOpt.getD (Json.str "Unknown status"))
            order_id data)], .ok .null)
  | .ok false => ([.observed (.orderUpdateReceived data)], .ok .null)

/-- Lines 73–79 of `handle_order_update`: the default textual
presentation taken when no callable handler is registered. `Data`
defaults to the empty dict when absent. -/
def defaultPresentation (order_update : Json) :
    List TraceEvent × Except PyErr Json :=
  match Json.dictGet order_update "Data" with
  | .error e => ([], .error e)
  | .ok dOpt => presentData (dOpt.getD (Json.obj []))

/-- `OrderUpdate.handle_order_update` (lines 62–81): classify one decoded
frame. If `order_update.get('Type') == 'order_alert'` and a callable
handler is registered, the handler is called with the full frame and its
result returned; with no callable handler the default presentation runs;
any other `Type` prints the unknown-message line. The returned pair is
(events emitted, Python result or raised exception). -/
def handle_order_update (slot : UpdateSlot) (order_update : Json) :
    List TraceEvent × Except PyErr Json :=
  match Json.dictGet order_update "Type" with
  | .error e => ([], .error e)
  | .ok tyOpt =>
    if pyEqStr tyOpt "order_alert" then
      match slot.activeHandler with
      | some f => ([.handlerInvoked order_update], f order_update)
      | Option.none => defaultPresentation order_update
    else
      ([.observed (.unknownMessage order_update)], .ok .null)

/-- Outcome of decoding one received text frame with the external decoder
`json.loads` (line 59): either the decoded value, or the
`json.JSONDecodeError` it raises on malformed text. -/
inductive DecodedFrame where
  | ok (v : Json)
  | malformed

/-- How the transport's frame iteration ends once the delivered frames
are exhausted: a clean server close (the `async for` ends normally), a
transport error raised while awaiting the next frame, or an external
cancellation delivered at that suspension point. -/
inductive StreamEnd where
  | closed
  | transportError
  | cancelled
  deriving DecidableEq

/-- A session-level failure: the transport could not be opened
(`websockets.connect` raised), a received frame failed to parse
(`json.loads` raised), the transport failed mid-stream, the session was
cancelled, or `handle_order_update` (or the registered handler inside
it) raised. -/
inductive SessionError where
  | openFailed
  | parseError
  | transportError
  | cancelled
  | dispatchError (e : PyErr)
  deriving DecidableEq

/-- One transport behaviour offered to a session attempt: whether
`websockets.connect` succeeds, the decoded frames it then delivers in
order, and how the iteration ends after them. -/
structure Transport where
  opens : Bool
  frames : List DecodedFrame
  ending : StreamEnd

/-- The outcome of the `async for` once the frame list is exhausted. -/
def endOutcome : StreamEnd → Except SessionError Unit
  | .closed => .ok ()
  | .transportError => .error .transportError
  | .cancelled => .error .cancelled

/-- The `async for message in websocket` loop (lines 58–60): each frame
is decoded by `json.loads` and passed to `handle_order_update`, whose
return value the loop discards; a decode failure or an exception out of
`handle_order_update` propagates and ends the loop at that frame. -/
def dispatchLoop (slot : UpdateSlot) :
    List DecodedFrame → StreamEnd → List TraceEvent × Except SessionError Unit
  | [], ending => ([], endOutcome ending)
  | .malformed :: _, _ => ([], .error .parseError)
  | .ok v :: rest, ending =>
    match handle_order_update slot v with
    | (evs, .error e) => (evs, .error (.dispatchError e))
    | (evs, .ok _) =>
      ((evs ++ (dispatchLoop slot rest ending).1),
       (dispatchLoop slot rest ending).2)

/-- The external credential context: an opaque provider of the client
identifier and access token strings (`get_client_id`,
`get_access_token`). -/
structure DhanContext where
  client_id : String
  access_token : String

/-- The `OrderUpdate` instance state: the two credential strings and the
hardcoded endpoint set by `__init__`, plus the `on_update` slot whose
class default is `None`. -/
structure OrderUpdate where
  client_id : String
  access_token : String
  order_feed_wss : String
  on_update : UpdateSlot

/-- `OrderUpdate.__init__` (lines 27–37): read the two credentials from
the context and fix the endpoint; `on_update` keeps its class default
`None` (line 25). -/
def OrderUpdate.init (dhan_context : DhanContext) : OrderUpdate :=
  { client_id := dhan_context.client_id,
    access_token := dhan_context.access_token,
    order_feed_wss := "wss://api-order-update.dhan.co",
    on_update := UpdateSlot.none }

/-- The `auth_message` dict built on lines 45–52, with `str(...)` the
identity on the credential strings. -/
def OrderUpdate.auth_message (self : OrderUpdate) : Json :=
  .obj [("LoginReq", .obj [("MsgCode", .num 42),
                           ("ClientId", .str self.client_id),
                           ("Token", .str self.access_token)]),
        ("UserType", .str "SELF")]

/-- `OrderUpdate.connect_order_update` (lines 39–60) run against one
transport behaviour: open the connection (`async with
websockets.connect`), send `json.dumps(auth_message)`, print the
sent-message line, run the dispatch loop, and — on every path that
entered the `async with` block, error or not — release the connection
(`__aexit__`) before control leaves. When the open fails no connection
exists and the error propagates directly. -/
def OrderUpdate.connect_order_update (self : OrderUpdate) (t : Transport) :
    List TraceEvent × Except SessionError Unit :=
  if t.opens then
    ((TraceEvent.sent self.auth_message.dumps ::
      TraceEvent.logSent self.auth_message ::
      ((dispatchLoop self.on_update t.frames t.ending).1 ++
        [TraceEvent.connClosed])),
     (dispatchLoop self.on_update t.frames t.ending).2)
  else
    ([], .error .openFailed)

/-- A Python coroutine object: calling an `async def` does not run its
body, it only builds this suspended computation; the body (and any
exception in it) runs only when the coroutine is later awaited against
the actual transport. -/
structure Coroutine where
  run : Transport → List TraceEvent × Except SessionError Unit

/-- What `connect_to_dhan_websocket_sync` gives its caller: either the
`try` body completed and the (un-awaited) coroutine is returned, or the
`except Exception` branch caught an error and printed the report. -/
inductive SyncResult where
  | returned (coro : Coroutine)
  | caughtAndReported (e : SessionError)

/-- `OrderUpdate.connect_to_dhan_websocket_sync` (lines 83–92): the `try`
body is `return self.connect_order_update()`. Calling the `async def`
merely constructs the coroutine object — no part of the handshake or
dispatch path executes inside the `try` — so construction cannot raise
and the function always returns the un-awaited coroutine. -/
def OrderUpdate.connect_to_dhan_websocket_sync (self : OrderUpdate) :
    SyncResult :=
  .returned ⟨fun t => self.connect_order_update t⟩

/-- Whether the `except Exception` branch ran. -/
def SyncResult.didCatch : SyncResult → Bool
  | .returned _ => false
  | .caughtAndReported _ => true

/-- What the caller observes after the synchronous entry returns: if it
got a coroutine back, awaiting it runs the session against the real
transport and yields that session's events and outcome; if the entry
caught and reported, there is nothing to await. -/
def SyncResult.awaited :
    SyncResult → Transport → Option (List TraceEvent × Except SessionError Unit)
  | .returned coro, t => some (coro.run t)
  | .caughtAndReported _, _ => Option.none

/-- Whether a trace event is a text frame passed to `websocket.send`. -/
def TraceEvent.isSent : TraceEvent → Bool
  | .sent _ => true
  | _ => false

/-- Whether a trace event is an invocation of the registered handler. -/
def TraceEvent.isHandlerInvoked : TraceEvent → Bool
  | .handlerInvoked _ => true
  | _ => false

/-- Every event the default presentation emits is a printed observation. -/
theorem defaultPresentation_events (v : Json) :
    ∀ ev ∈ (defaultPresentation v).1, ∃ o, ev = TraceEvent.observed o := by
  unfold defaultPresentation presentData
  repeat' split
  all_goals simp

/-- `handle_order_update` never sends a frame on the transport. -/
theorem handle_events_sent_free (slot : UpdateSlot) (v : Json) :
    ∀ ev ∈ (handle_order_update slot v).1, ev.isSent = false := by
  intro ev hev
  unfold handle_order_update at hev
  repeat' split at hev
  all_goals
    solve
      | simp_all [TraceEvent.isSent]
      | (obtain ⟨o, rfl⟩ := defaultPresentation_events v ev hev; rfl)

/-- When the guard `self.on_update and callable(self.on_update)` fails,
no event of `handle_order_update` is a handler invocation. -/
theorem handle_events_handler_free (slot : UpdateSlot) (v : Json)
    (hs : slot.activeHandler = Option.none) :
    ∀ ev ∈ (handle_order_update slot v).1, ev.isHandlerInvoked = false := by
  intro ev hev
  unfold handle_order_update at hev
  repeat' split at hev
  all_goals
    solve
      | simp_all [TraceEvent.isHandlerInvoked]
      | (obtain ⟨o, rfl⟩ := defaultPresentation_events v ev hev; rfl)

/-- A frame on which `handle_order_update` returns normally emits exactly
one event (one handler call or one printed line). -/
theorem handle_ok_length (slot : UpdateSlot) (v : Json) (r : Json)
    (h : (handle_order_update slot v).2 = Except.ok r) :
    (handle_order_update slot v).1.length = 1 := by
  revert h
  unfold handle_order_update defaultPresentation presentData
  repeat' split
  all_goals simp

/-- Running the dispatch loop over a prefix of frames that all decode and
are all handled without an exception processes them one by one, in order,
and continues with the remaining frames. -/
theorem dispatchLoop_all_handled (slot : UpdateSlot) (vs : List Json)
    (l : List DecodedFrame) (ending : StreamEnd)
    (h : ∀ v ∈ vs, ∃ r, (handle_order_update slot v).2 = Except.ok r) :
    dispatchLoop slot (vs.map DecodedFrame.ok ++ l) ending =
      ((vs.map fun v => (handle_order_update slot v).1).flatten ++
         (dispatchLoop slot l ending).1,
       (dispatchLoop slot l ending).2) := by
  induction vs with
  | nil => simp
  | cons v vs ih =>
    obtain ⟨r, hr⟩ := h v (List.mem_cons_self v vs)
    rcases hp : handle_order_update slot v with ⟨evs, res⟩
    rw [hp] at hr
    simp only at hr
    subst hr
    have ih2 := ih (fun w hw => h w (List.mem_cons_of_mem v hw))
    simp only [List.map_cons, List.cons_append, dispatchLoop, hp, List.append_eq]
    rw [ih2]
    simp [List.append_assoc]

/-- The dispatch loop never sends a frame on the transport: the only
`websocket.send` in the session is the login frame before the loop. -/
theorem dispatchLoop_events_sent_free (slot : UpdateSlot)
    (l : List DecodedFrame) (ending : StreamEnd) :
    ∀ ev ∈ (dispatchLoop slot l ending).1, ev.isSent = false := by
  induction l with
  | nil => cases ending <;> simp [dispatchLoop]
  | cons fr rest ih =>
    intro ev hev
    cases fr with
    | malformed => simp [dispatchLoop] at hev
    | ok v =>
      have hv := handle_events_sent_free slot v ev
      rcases hp : handle_order_update slot v with ⟨evs, res⟩
      rw [hp] at hv
      cases res with
      | error e =>
        simp only [dispatchLoop, hp] at hev
        exact hv hev
      | ok r =>
        simp only [dispatchLoop, hp] at hev
        rcases List.mem_append.mp hev with h1 | h1
        · exact hv h1
        · exact ih ev h1

/-- A list ending in the connection-release event has it as last
element. -/
theorem getLast_cons_cons_append (a b : TraceEvent) (l : List TraceEvent)
    (c : TraceEvent) : (a :: b :: (l ++ [c])).getLast? = some c := by
  rw [show a :: b :: (l ++ [c]) = (a :: b :: l) ++ [c] by simp,
    List.getLast?_concat]

/-- Claim C1: contrary to the claim, the synchronous entry catches
nothing — its `try` body only constructs the coroutine object, so no
handshake or dispatch error can occur inside the `try` — and at a
concrete failing input (a transport whose open fails) the session error
surfaces to the caller when the returned coroutine is awaited, escaping
the reporting boundary uncaught. -/
theorem sync_entry_error_escapes_boundary :
    (∀ u : OrderUpdate, u.connect_to_dhan_websocket_sync.didCatch = false) ∧
    ((OrderUpdate.init ⟨"1100003626", "eyJhbGc"⟩).connect_to_dhan_websocket_sync.awaited
        ⟨false, [], StreamEnd.closed⟩ =
      some ([], Except.error SessionError.openFailed)) :=
  ⟨fun _ => rfl, rfl⟩

/-- Claim C2: for a frame whose `Type` field equals `"order_alert"` and a
registered callable handler, the dispatcher emits exactly one event — the
handler invocation carrying the full decoded frame — returns the
handler's result, and produces no default textual observation. -/
theorem order_alert_routed_exclusively_to_handler
    (f : Json → Except PyErr Json) (frame : Json) (tyOpt : Option Json)
    (hget : Json.dictGet frame "Type" = Except.ok tyOpt)
    (hty : pyEqStr tyOpt "order_alert" = true) :
    handle_order_update (UpdateSlot.handler f) frame =
      ([TraceEvent.handlerInvoked frame], f frame) := by
  unfold handle_order_update
  rw [hget]
  simp [hty, UpdateSlot.activeHandler]

/-- Witness for C2 at a concrete order-alert frame and handler. -/
theorem order_alert_routed_exclusively_to_handler_witness :
    handle_order_update (UpdateSlot.handler fun _ => Except.ok (Json.str "handled"))
        (Json.obj [("Type", Json.str "order_alert")]) =
      ([TraceEvent.handlerInvoked (Json.obj [("Type", Json.str "order_alert")])],
       Except.ok (Json.str "handled")) :=
  order_alert_routed_exclusively_to_handler
    (fun _ => Except.ok (Json.str "handled"))
    (Json.obj [("Type", Json.str "order_alert")])
    (some (Json.str "order_alert")) rfl rfl

/-- Claim C3: when the transport opens, the session sends exactly one
frame, that frame is the `json.dumps` serialization of the login payload
built from the credential strings verbatim (message code 42, user type
SELF), and it is the very first event of the session — before any inbound
frame is dispatched. -/
theorem login_frame_sent_once_first_verbatim (u : OrderUpdate) (t : Transport)
    (h : t.opens = true) :
    (u.connect_order_update t).1.filter TraceEvent.isSent =
      [TraceEvent.sent (Json.dumps (Json.obj
        [("LoginReq", Json.obj [("MsgCode", Json.num 42),
                                ("ClientId", Json.str u.client_id),
                                ("Token", Json.str u.access_token)]),
         ("UserType", Json.str "SELF")]))] ∧
    (u.connect_order_update t).1.head? =
      some (TraceEvent.sent (Json.dumps (Json.obj
        [("LoginReq", Json.obj [("MsgCode", Json.num 42),
                                ("ClientId", Json.str u.client_id),
                                ("Token", Json.str u.access_token)]),
         ("UserType", Json.str "SELF")]))) := by
  have hnil : (dispatchLoop u.on_update t.frames t.ending).1.filter
      TraceEvent.isSent = [] := by
    rw [List.filter_eq_nil_iff]
    intro a ha
    simp [dispatchLoop_events_sent_free u.on_update t.frames t.ending a ha]
  unfold OrderUpdate.connect_order_update
  rw [if_pos h]
  constructor
  · simp [List.filter_cons, List.filter_append, hnil, TraceEvent.isSent,
      OrderUpdate.auth_message]
  · rfl

/-- Witness for C3 at the spec's credential scenario: the login frame is
the exact serialized text, sent first. -/
theorem login_frame_sent_once_first_verbatim_witness :
    (((OrderUpdate.init ⟨"1100003626", "eyJhbGc"⟩).connect_order_update
        ⟨true, [], StreamEnd.closed⟩).1.filter TraceEvent.isSent =
      [TraceEvent.sent "\x7b\"LoginReq\": \x7b\"MsgCode\": 42, \"ClientId\": \"1100003626\", \"Token\": \"eyJhbGc\"\x7d, \"UserType\": \"SELF\"\x7d"]) ∧
    (((OrderUpdate.init ⟨"1100003626", "eyJhbGc"⟩).connect_order_update
        ⟨true, [], StreamEnd.closed⟩).1.head? =
      some (TraceEvent.sent "\x7b\"LoginReq\": \x7b\"MsgCode\": 42, \"ClientId\": \"1100003626\", \"Token\": \"eyJhbGc\"\x7d, \"UserType\": \"SELF\"\x7d")) :=
  login_frame_sent_once_first_verbatim
    (OrderUpdate.init ⟨"1100003626", "eyJhbGc"⟩) ⟨true, [], StreamEnd.closed⟩ rfl

/-- Claim C4: a frame whose `Type` field is absent or not equal to
`"order_alert"` yields exactly the unknown-message observation carrying
the raw decoded frame, for every state of the handler slot — the handler
is not invoked. -/
theorem non_order_alert_unknown_observation (slot : UpdateSlot)
    (fields : List (String × Json))
    (hty : pyEqStr (fields.lookup "Type") "order_alert" = false) :
    handle_order_update slot (Json.obj fields) =
      ([TraceEvent.observed (Observation.unknownMessage (Json.obj fields))],
       Except.ok Json.null) := by
  unfold handle_order_update
  simp [Json.dictGet, hty]

/-- Witness for C4 at the spec's heartbeat scenario, with a handler
registered: the handler stays untouched. -/
theorem non_order_alert_unknown_observation_witness :
    handle_order_update (UpdateSlot.handler fun _ => Except.ok Json.null)
        (Json.obj [("Type", Json.str "heartbeat")]) =
      ([TraceEvent.observed (Observation.unknownMessage
          (Json.obj [("Type", Json.str "heartbeat")]))], Except.ok Json.null) :=
  non_order_alert_unknown_observation
    (UpdateSlot.handler fun _ => Except.ok Json.null)
    [("Type", Json.str "heartbeat")] rfl

/-- Claim C5: an order-alert frame with no handler registered and a
`Data` dict containing `orderNo` yields exactly the status-line
observation whose order identifier is `Data.orderNo`, whose status is
`Data.status` when present and the literal `"Unknown status"` otherwise,
and which carries the full `Data` payload. -/
theorem no_handler_status_line_from_data (fields d : List (String × Json))
    (oid : Json)
    (hty : fields.lookup "Type" = some (Json.str "order_alert"))
    (hdata : fields.lookup "Data" = some (Json.obj d))
    (hno : d.lookup "orderNo" = some oid) :
    handle_order_update UpdateSlot.none (Json.obj fields) =
      ([TraceEvent.observed (Observation.statusLine
          ((d.lookup "status").getD (Json.str "Unknown status")) oid
          (Json.obj d))],
       Except.ok Json.null) := by
  unfold handle_order_update defaultPresentation presentData
  simp [Json.dictGet, hty, hdata, pyEqStr, pyContains, hno, Json.subscript,
    UpdateSlot.activeHandler]

/-- Witness for C5 at the spec scenario frame. -/
theorem no_handler_status_line_from_data_witness :
    handle_order_update UpdateSlot.none
        (Json.obj [("Type", Json.str "order_alert"),
                   ("Data", Json.obj [("orderNo", Json.str "112111182045"),
                                      ("status", Json.str "TRADED")])]) =
      ([TraceEvent.observed (Observation.statusLine (Json.str "TRADED")
          (Json.str "112111182045")
          (Json.obj [("orderNo", Json.str "112111182045"),
                     ("status", Json.str "TRADED")]))],
       Except.ok Json.null) :=
  no_handler_status_line_from_data
    [("Type", Json.str "order_alert"),
     ("Data", Json.obj [("orderNo", Json.str "112111182045"),
                        ("status", Json.str "TRADED")])]
    [("orderNo", Json.str "112111182045"), ("status", Json.str "TRADED")]
    (Json.str "112111182045") rfl rfl rfl

/-- Claim C6: over a transport delivering `N` well-formed frames, each of
which is handled without an exception, the dispatch loop emits the
per-frame event lists concatenated in exactly the input order, and —
since each successfully handled frame emits exactly one event — the total
number of observations/handler invocations equals `N`. -/
theorem dispatch_preserves_order_and_count (slot : UpdateSlot)
    (vs : List Json) (ending : StreamEnd)
    (h : ∀ v ∈ vs, ∃ r, (handle_order_update slot v).2 = Except.ok r) :
    (dispatchLoop slot (vs.map DecodedFrame.ok) ending).1 =
      (vs.map fun v => (handle_order_update slot v).1).flatten ∧
    (dispatchLoop slot (vs.map DecodedFrame.ok) ending).1.length = vs.length := by
  have key := dispatchLoop_all_handled slot vs [] ending h
  rw [List.append_nil] at key
  have h1 : (dispatchLoop slot (vs.map DecodedFrame.ok) ending).1 =
      (vs.map fun v => (handle_order_update slot v).1).flatten := by
    rw [key]
    cases ending <;> simp [dispatchLoop]
  refine ⟨h1, ?_⟩
  rw [h1, List.length_flatten, List.map_map]
  have hone : ∀ v ∈ vs,
      (List.length ∘ fun v => (handle_order_update slot v).1) v = 1 := by
    intro v hv
    obtain ⟨r, hr⟩ := h v hv
    exact handle_ok_length slot v r hr
  rw [List.map_congr_left hone]
  simp

/-- Witness for C6 at the spec scenario: three frames, clean close, three
observations in receipt order. -/
theorem dispatch_preserves_order_and_count_witness :
    (dispatchLoop UpdateSlot.none
        ([Json.obj [("Type", Json.str "heartbeat")],
          Json.obj [("Type", Json.str "order_alert"),
                    ("Data", Json.obj [("orderNo", Json.str "112111182045"),
                                       ("status", Json.str "TRADED")])],
          Json.obj []].map DecodedFrame.ok) StreamEnd.closed).1 =
      [TraceEvent.observed (Observation.unknownMessage
          (Json.obj [("Type", Json.str "heartbeat")])),
       TraceEvent.observed (Observation.statusLine (Json.str "TRADED")
          (Json.str "112111182045")
          (Json.obj [("orderNo", Json.str "112111182045"),
                     ("status", Json.str "TRADED")])),
       TraceEvent.observed (Observation.unknownMessage (Json.obj []))] ∧
    (dispatchLoop UpdateSlot.none
        ([Json.obj [("Type", Json.str "heartbeat")],
          Json.obj [("Type", Json.str "order_alert"),
                    ("Data", Json.obj [("orderNo", Json.str "112111182045"),
                                       ("status", Json.str "TRADED")])],
          Json.obj []].map DecodedFrame.ok) StreamEnd.closed).1.length = 3 :=
  dispatch_preserves_order_and_count UpdateSlot.none
    [Json.obj [("Type", Json.str "heartbeat")],
     Json.obj [("Type", Json.str "order_alert"),
               ("Data", Json.obj [("orderNo", Json.str "112111182045"),
                                  ("status", Json.str "TRADED")])],
     Json.obj []] StreamEnd.closed
    (by
      intro v hv
      simp only [List.mem_cons, List.not_mem_nil, or_false] at hv
      rcases hv with rfl | rfl | rfl <;> exact ⟨Json.null, rfl⟩)

/-- Claim C7: a frame that fails JSON decoding raises a parse error that
is a distinct failure from a transport error; the loop terminates on that
frame — the events are exactly those of the preceding frames and nothing
from any later frame is processed. -/
theorem malformed_frame_fatal_parse_error (slot : UpdateSlot) (vs : List Json)
    (rest : List DecodedFrame) (ending : StreamEnd)
    (h : ∀ v ∈ vs, ∃ r, (handle_order_update slot v).2 = Except.ok r) :
    dispatchLoop slot
        (vs.map DecodedFrame.ok ++ DecodedFrame.malformed :: rest) ending =
      ((vs.map fun v => (handle_order_update slot v).1).flatten,
       Except.error SessionError.parseError) ∧
    SessionError.parseError ≠ SessionError.transportError := by
  refine ⟨?_, by decide⟩
  rw [dispatchLoop_all_handled slot vs _ ending h]
  simp [dispatchLoop]

/-- Witness for C7: one good frame, then a malformed frame, then a
further (unprocessed) frame. -/
theorem malformed_frame_fatal_parse_error_witness :
    (dispatchLoop UpdateSlot.none
        ([Json.obj [("Type", Json.str "heartbeat")]].map DecodedFrame.ok ++
          DecodedFrame.malformed :: [DecodedFrame.ok (Json.obj [])])
        StreamEnd.closed =
      ([TraceEvent.observed (Observation.unknownMessage
          (Json.obj [("Type", Json.str "heartbeat")]))],
       Except.error SessionError.parseError)) ∧
    SessionError.parseError ≠ SessionError.transportError :=
  malformed_frame_fatal_parse_error UpdateSlot.none
    [Json.obj [("Type", Json.str "heartbeat")]]
    [DecodedFrame.ok (Json.obj [])] StreamEnd.closed
    (by
      intro v hv
      simp only [List.mem_cons, List.not_mem_nil, or_false] at hv
      rcases hv with rfl
      exact ⟨Json.null, rfl⟩)

/-- Claim C8: whenever the transport open succeeded, the last event of
the session — on every exit path: clean stream end, parse error, handler
exception, transport error, or cancellation — is the release of the
connection, so control never leaves `connect_order_update` with the
connection open. -/
theorem connection_released_on_every_exit (u : OrderUpdate) (t : Transport)
    (h : t.opens = true) :
    (u.connect_order_update t).1.getLast? = some TraceEvent.connClosed := by
  unfold OrderUpdate.connect_order_update
  rw [if_pos h]
  exact getLast_cons_cons_append _ _ _ _

/-- Witness for C8 on an error exit path: a malformed frame aborts the
dispatch loop, and the connection is still released last. -/
theorem connection_released_on_every_exit_witness :
    ((OrderUpdate.init ⟨"1100003626", "eyJhbGc"⟩).connect_order_update
        ⟨true, [DecodedFrame.malformed], StreamEnd.transportError⟩).1.getLast? =
      some TraceEvent.connClosed :=
  connection_released_on_every_exit
    (OrderUpdate.init ⟨"1100003626", "eyJhbGc"⟩)
    ⟨true, [DecodedFrame.malformed], StreamEnd.transportError⟩ rfl

/-- Claim C9: an order-alert frame with no handler and either no `Data`
key or a `Data` dict lacking `orderNo` is handled without raising: the
payload defaults to the empty dict when absent, and the generic
order-update observation carrying that payload is produced. -/
theorem missing_data_defaults_no_raise (fields : List (String × Json))
    (hty : fields.lookup "Type" = some (Json.str "order_alert"))
    (hdata : fields.lookup "Data" = none ∨
      ∃ d, fields.lookup "Data" = some (Json.obj d) ∧
        d.lookup "orderNo" = none) :
    handle_order_update UpdateSlot.none (Json.obj fields) =
      ([TraceEvent.observed (Observation.orderUpdateReceived
          ((fields.lookup "Data").getD (Json.obj [])))],
       Except.ok Json.null) := by
  unfold handle_order_update defaultPresentation presentData
  rcases hdata with hd | ⟨d, hd, hno⟩
  · simp [Json.dictGet, hty, hd, pyContains, pyEqStr, UpdateSlot.activeHandler]
  · simp [Json.dictGet, hty, hd, hno, pyContains, pyEqStr,
      UpdateSlot.activeHandler]

/-- Witness for C9 at an order-alert frame with no `Data` key. -/
theorem missing_data_defaults_no_raise_witness :
    handle_order_update UpdateSlot.none
        (Json.obj [("Type", Json.str "order_alert")]) =
      ([TraceEvent.observed (Observation.orderUpdateReceived (Json.obj []))],
       Except.ok Json.null) :=
  missing_data_defaults_no_raise [("Type", Json.str "order_alert")] rfl
    (Or.inl rfl)

/-- Claim C10: a freshly constructed instance has `on_update = None`, so
recognized order-alert frames take the default textual path; an assigned
non-callable value is likewise ignored, taking the same default path; and
on that path no event is a handler invocation. -/
theorem unset_or_noncallable_slot_takes_default_path (ctx : DhanContext)
    (v : Json) (fields : List (String × Json))
    (hty : pyEqStr (fields.lookup "Type") "order_alert" = true) :
    (OrderUpdate.init ctx).on_update = UpdateSlot.none ∧
    handle_order_update (OrderUpdate.init ctx).on_update (Json.obj fields) =
      defaultPresentation (Json.obj fields) ∧
    handle_order_update (UpdateSlot.noncallable v) (Json.obj fields) =
      defaultPresentation (Json.obj fields) ∧
    ∀ ev ∈ (handle_order_update (OrderUpdate.init ctx).on_update
        (Json.obj fields)).1, ev.isHandlerInvoked = false := by
  refine ⟨rfl, ?_, ?_, ?_⟩
  · unfold handle_order_update
    simp [Json.dictGet, hty, OrderUpdate.init, UpdateSlot.activeHandler]
  · unfold handle_order_update
    simp [Json.dictGet, hty, UpdateSlot.activeHandler]
  · exact handle_events_handler_free (OrderUpdate.init ctx).on_update
      (Json.obj fields) rfl

/-- Witness for C10 at a concrete order-alert frame and a non-callable
slot value. -/
theorem unset_or_noncallable_slot_takes_default_path_witness :
    ((OrderUpdate.init ⟨"1100003626", "eyJhbGc"⟩).on_update =
      UpdateSlot.none) ∧
    (handle_order_update
        (OrderUpdate.init ⟨"1100003626", "eyJhbGc"⟩).on_update
        (Json.obj [("Type", Json.str "order_alert")]) =
      defaultPresentation (Json.obj [("Type", Json.str "order_alert")])) ∧
    (handle_order_update (UpdateSlot.noncallable (Json.str "not callable"))
        (Json.obj [("Type", Json.str "order_alert")]) =
      defaultPresentation (Json.obj [("Type", Json.str "order_alert")])) ∧
    ∀ ev ∈ (handle_order_update
        (OrderUpdate.init ⟨"1100003626", "eyJhbGc"⟩).on_update
        (Json.obj [("Type", Json.str "order_alert")])).1,
      ev.isHandlerInvoked = false :=
  unset_or_noncallable_slot_takes_default_path ⟨"1100003626", "eyJhbGc"⟩
    (Json.str "not callable") [("Type", Json.str "order_alert")] rfl
